import Mathlib

/-!
# ZedRecorder: the acquisition and recording loop

A shallow embedding of `src/tools/ZedRecorder.cpp`.

* The parsed command line is a record `Args`; every `xxxArg.isSet()` of the
  source is a boolean field.
* Everything the program obtains from its collaborators (the data source, the
  camera SDK, the log writer, the steady clock, the delivery of signals) is
  read from a record `World`; the per-cycle part of it is a `CycleEnv`.
* Every call the program makes on a collaborator is recorded as an `Event`
  in a trace, in program order.
* Time points are ticks of `std::chrono::steady_clock`, taken to be
  nanoseconds.
* `int` values are integers; the one `int` that is incremented (`count`) and
  the one that is converted from a floating value (`dt_us`) are checked
  against the range of a 32 bit `int`, and leaving it is an outcome of its own.
* `fps` is an exact rational.
-/

namespace ZedRecorder

/-! ## Signal handling (lines 30-39) -/

/-- The number of the interrupt signal. -/
def SIGINT : Int := 2

/-- The function `signal_handler` of the source, as a transformer of the global
`keepGoing`. -/
def signal_handler (sig : Int) (keepGoing : Bool) : Bool :=
  if sig = SIGINT then false else keepGoing

/-! ## Data -/

/-- An image payload (`cv::Mat`), as its sequence of bytes. -/
abbrev Mat := List Nat

/-- The compression argument after parsing (lines 85-97). -/
inductive Compression where
  | snappy
  | level (n : Int)
  deriving DecidableEq, Repr

/-- The parsed command line (lines 56-83). -/
structure Args where
  fpsArg : ℚ
  logInput : Bool
  svoInput : Bool
  svoOutput : Bool
  loggerOutput : Bool
  calibOutput : Bool
  imageOutput : Bool
  compression : Option Compression
  doDepth : Bool
  doRight : Bool
  doGui : Bool
  duration : Int

/-- The fields a compressed log can hold (the handles of lines 175-182). -/
inductive Field where
  | left
  | right
  | depth
  deriving DecidableEq, Repr

/-- The warnings and fatal messages of the source. -/
inductive Msg where
  | noOutputOptions
  | makingDirectory
  | depthNotInLog
  | rightNotInLog
  | noCalibrationFromLog
  | unableToInitZed
  | fpsCheckFailed
  | unableToOpenLog
  | errorWhileRecording
  | rightEmpty
  | depthEmpty
  | leftEmpty
  | errorWritingFrame
  | problemGrabbing
  deriving DecidableEq, Repr

/-- The calls the program makes on its collaborators. -/
inductive Event where
  | warn (m : Msg)
  | createDirectory
  | newLoggerSource
  | newCamera (fromSvo : Bool)
  | cameraInitRecording
  | cameraInit
  | newZedSource
  | deleteCamera
  | calibrationFromZed
  | getImageSize
  | registerField (f : Field)
  | logOpen
  | sleepFor (seconds : Nat)
  | logFrames (count : Int)
  | cameraRecord
  | displayRecorded
  | grab (ok : Bool)
  | getImage (index : Nat)
  | getDepth
  | imwrite (file : String) (data : Mat)
  | newFrame
  | addField (f : Field) (data : Mat)
  | imshow (window : String) (data : Mat)
  | waitKey
  | writeFrame (block : Bool)
  | sleepUntil (t : Int)
  | stopRecording
  | logClose
  | deleteDataSource
  deriving DecidableEq, Repr

/-- What one pass through the loop reads from outside the program. -/
structure CycleEnv where
  /-- the signals delivered since `keepGoing` was last tested -/
  signals : List Int
  /-- the value of `steady_clock::now()` at line 209 -/
  present : Int
  /-- the result of `camera->record()` (true is an error) -/
  recordErr : Bool
  /-- the result of `dataSource->grab()` -/
  grabOk : Bool
  left : Mat
  right : Mat
  depth : Mat
  /-- the result of `logWriter.writeFrame` -/
  writeFrameOk : Bool

/-- What the program reads from outside during a run. -/
structure World where
  imageDirExists : Bool
  srcNumFrames : Int
  srcFps : ℚ
  srcHasDepth : Bool
  srcNumImages : Int
  cameraInitOk : Bool
  logOpenOk : Bool
  /-- the value of `steady_clock::now()` at line 193 -/
  start : Int
  cycle : Nat → CycleEnv

/-- The camera operations that go through the pointer `camera`. -/
inductive CameraOp where
  | getImageSize
  | record
  | stopRecording
  deriving DecidableEq, Repr

/-- How a run ends. -/
inductive Outcome where
  /-- the call `exit(code)`, or `return code` from `main` -/
  | exit (code : Int)
  /-- a message logged with `LOG(FATAL)`, or a failed `CHECK` -/
  | fatal (m : Msg)
  /-- a member call through the pointer `camera` while it is `NULL` -/
  | nullCamera (op : CameraOp)
  /-- the conversion of `1e6/fps` to `int` leaves the range of `int` -/
  | intConversion
  /-- the increment `count++` leaves the range of `int` -/
  | countOverflow
  /-- the loop is still running when the fuel is used up -/
  | stillRunning
  deriving DecidableEq, Repr

/-! ## Formatting of file names (lines 226-227, 239-240, 259-260) -/

/-- The largest value of a 32 bit `int`. -/
def INT_MAX : Int := 2147483647

/-- The decimal digits of `n`, most significant first, put before `acc`. -/
def decimalDigits : Nat → Nat → List Char → List Char
  | 0, _, acc => acc
  | fuel + 1, n, acc =>
    if n / 10 = 0 then Nat.digitChar (n % 10) :: acc
    else decimalDigits fuel (n / 10) (Nat.digitChar (n % 10) :: acc)

/-- The conversion `%06d` of `printf`: the decimal digits of the value (an `int`
has at most ten), at least six characters wide, filled with zeros after the
sign. -/
def fmt06d (v : Int) : List Char :=
  let ds := decimalDigits 10 v.natAbs []
  if v < 0 then '-' :: (List.replicate (5 - ds.length) '0' ++ ds)
  else List.replicate (6 - ds.length) '0' ++ ds

/-- The call `snprintf(filename, 79, "<field>_%06d.png", count)`: at most 78
characters are kept. -/
def fileName (field : String) (count : Int) : String :=
  String.mk ((field.data ++ '_' :: fmt06d count ++ ".png".data).take 78)

/-! ## Pacing (line 190) -/

/-- The conversion of a floating value to `int`: truncation towards zero,
undefined outside the range of `int`. -/
def toInt (q : ℚ) : Option Int :=
  let t : Int := if 0 ≤ q then ⌊q⌋ else ⌈q⌉
  if -2147483648 ≤ t ∧ t ≤ INT_MAX then some t else none

/-- The initialiser of `dt_us`: `(fps > 0) ? (1e6/fps) : 0`, converted to `int`. -/
def dt_us (fps : ℚ) : Option Int :=
  if fps > 0 then toInt (1000000 / fps) else toInt 0

/-! ## One pass through the loop (lines 206-304) -/

/-- The branch of lines 220-293: `dataSource->grab()` and, when it succeeds,
the dispatch of the fields to the outputs. -/
def grabAndDispatch (a : Args) (count : Int) (e : CycleEnv) : List Event :=
  if e.grabOk then
    [Event.grab true, Event.getImage 0]
    ++ (if a.imageOutput then [Event.imwrite (fileName "left" count) e.left]
        else if a.loggerOutput then [Event.newFrame, Event.addField Field.left e.left]
        else [])
    ++ (if a.doRight then
          [Event.getImage 1]
          ++ (if a.imageOutput then [Event.imwrite (fileName "right" count) e.left]
              else if a.loggerOutput then [Event.addField Field.right e.right]
              else [])
          ++ (if a.doGui then
                (if e.right.isEmpty then [Event.warn Msg.rightEmpty]
                 else [Event.imshow "Right" e.right])
              else [])
        else [])
    ++ (if a.doDepth then
          [Event.getDepth]
          ++ (if a.imageOutput then [Event.imwrite (fileName "depth" count) e.left]
              else if a.loggerOutput then [Event.addField Field.depth e.depth]
              else [])
          ++ (if a.doGui then
                (if e.depth.isEmpty then [Event.warn Msg.depthEmpty]
                 else [Event.imshow "Depth" e.depth])
              else [])
        else [])
    ++ (if a.doGui then
          (if e.left.isEmpty then [Event.warn Msg.leftEmpty]
           else [Event.imshow "Left" e.left, Event.waitKey])
        else [])
    ++ (if a.loggerOutput then
          Event.writeFrame false
            :: (if e.writeFrameOk then [] else [Event.warn Msg.errorWritingFrame])
        else [])
  else
    [Event.grab false, Event.warn Msg.problemGrabbing]

/-- The statement of lines 213-294: `none` when `camera->record()` is called
through a `NULL` camera. -/
def acquire (a : Args) (camera : Bool) (count : Int) (e : CycleEnv) :
    Option (List Event) :=
  if a.svoOutput then
    if camera then
      some (Event.cameraRecord ::
        (if e.recordErr then [Event.warn Msg.errorWhileRecording]
         else if a.doGui then [Event.displayRecorded] else []))
    else none
  else some (grabAndDispatch a count e)

/-- Where the loop stands. -/
inductive Status where
  | running
  | stopped
  | crashed (o : Outcome)
  deriving DecidableEq, Repr

/-- The state of the loop: the global `keepGoing`, the local `count`, the
number of times the loop condition has been tested, and the trace so far. -/
structure LoopState where
  keepGoing : Bool
  count : Int
  tests : Nat
  trace : List Event
  status : Status

/-- The constants of the loop, computed before it (lines 122-195). -/
structure LoopCfg where
  args : Args
  /-- whether `camera` is not `NULL` -/
  camera : Bool
  numFrames : Int
  dt : Int
  /-- the time point `end` of line 195 -/
  endT : Int

/-- The effect of the signals delivered since the last test of `keepGoing`. -/
def deliver (signals : List Int) (keepGoing : Bool) : Bool :=
  signals.foldl (fun k sig => signal_handler sig k) keepGoing

/-- Line 207: the progress message, every hundred frames. -/
def progressLog (count : Int) : List Event :=
  if count > 0 ∧ count % 100 = 0 then [Event.logFrames count] else []

/-- Lines 296-297: the sleep until `present + dt_us` microseconds, as a time
point of the steady clock. -/
def pacing (dt : Int) (present : Int) : List Event :=
  if dt > 0 then [Event.sleepUntil (present + dt * 1000)] else []

/-- One test of the loop condition and, when it holds, one execution of the
loop body. -/
def cycle (c : LoopCfg) (e : CycleEnv) (s : LoopState) : LoopState :=
  let kg := deliver e.signals s.keepGoing
  if kg = false then
    { s with keepGoing := kg, tests := s.tests + 1, status := Status.stopped }
  else
    let progress := progressLog s.count
    if c.args.duration > 0 ∧ e.present > c.endT then
      { s with keepGoing := false, tests := s.tests + 1, trace := s.trace ++ progress,
               status := Status.stopped }
    else
      match acquire c.args c.camera s.count e with
      | none =>
        { s with keepGoing := kg, tests := s.tests + 1, trace := s.trace ++ progress,
                 status := Status.crashed (Outcome.nullCamera CameraOp.record) }
      | some evs =>
        let pacing := pacing c.dt e.present
        let count1 := s.count + 1
        if count1 > INT_MAX then
          { s with keepGoing := kg, tests := s.tests + 1,
                   trace := s.trace ++ progress ++ evs ++ pacing,
                   status := Status.crashed Outcome.countOverflow }
        else
          { keepGoing := if c.numFrames > 0 ∧ count1 ≥ c.numFrames then false else kg,
            count := count1,
            tests := s.tests + 1,
            trace := s.trace ++ progress ++ evs ++ pacing,
            status := Status.running }

/-- The loop of lines 206-304, run for at most `fuel` tests of its condition.
The environment of the `i`-th test (from 0) is `env i`. -/
def runLoop (c : LoopCfg) (env : Nat → CycleEnv) : Nat → LoopState → LoopState
  | 0, s => s
  | fuel + 1, s =>
    if s.status = Status.running then runLoop c env fuel (cycle c (env s.tests) s) else s

/-- The state in which the loop is entered (lines 30 and 205); the signals
delivered before the first test of the loop condition are those of `env 0`. -/
def enterLoop (trace : List Event) : LoopState :=
  { keepGoing := true, count := 0, tests := 0, trace := trace, status := Status.running }

/-! ## The program (lines 99-340) -/

/-- The test of line 100: no output option is set. -/
def noOutput (a : Args) : Bool :=
  !a.svoOutput && !a.imageOutput && !a.loggerOutput && !a.doGui

/-- Lines 105-113: the image directory is made when it is missing. -/
def prepareImageDir (a : Args) (w : World) : List Event :=
  if a.imageOutput then
    (if w.imageDirExists then [] else [Event.warn Msg.makingDirectory, Event.createDirectory])
  else []

/-- Lines 307-330: the teardown after the loop. -/
def teardown (a : Args) (camera : Bool) (trace : List Event) : List Event × Outcome :=
  if camera then
    (trace ++ [Event.stopRecording]
       ++ (if a.loggerOutput then [Event.logClose] else [])
       ++ [Event.deleteDataSource, Event.deleteCamera],
     Outcome.exit 0)
  else (trace, Outcome.nullCamera CameraOp.stopRecording)

/-- Lines 169-330: from the reading of the source properties to the end of
`main`, for a data source that has been constructed. -/
def record (a : Args) (w : World) (camera : Bool) (fuel : Nat)
    (trace : List Event) : List Event × Outcome :=
  if w.srcFps < 0 then (trace, Outcome.fatal Msg.fpsCheckFailed)
  else if a.loggerOutput && !camera then (trace, Outcome.nullCamera CameraOp.getImageSize)
  else
    let fields :=
      if a.loggerOutput then
        [Event.getImageSize, Event.registerField Field.left]
        ++ (if a.doDepth then [Event.registerField Field.depth] else [])
        ++ (if a.doRight then [Event.registerField Field.right] else [])
        ++ [Event.logOpen]
      else []
    if a.loggerOutput && !w.logOpenOk then (trace ++ fields, Outcome.fatal Msg.unableToOpenLog)
    else
      match dt_us w.srcFps with
      | none => (trace ++ fields, Outcome.intConversion)
      | some dt =>
        let c : LoopCfg :=
          { args := a, camera := camera, numFrames := w.srcNumFrames, dt := dt,
            endT := w.start + a.duration * 1000000000 }
        let s := runLoop c w.cycle fuel (enterLoop (trace ++ fields ++ [Event.sleepFor 1]))
        match s.status with
        | Status.running => (s.trace, Outcome.stillRunning)
        | Status.crashed o => (s.trace, o)
        | Status.stopped => teardown a camera s.trace

/-- The function `main` from the output validation on (lines 99-340), for a
parsed command line; `fuel` bounds the number of tests of the loop condition. -/
def main (a : Args) (w : World) (fuel : Nat) : List Event × Outcome :=
  if noOutput a then ([Event.warn Msg.noOutputOptions], Outcome.exit (-1))
  else
    let t0 := prepareImageDir a w
    if a.logInput then
      let t1 := t0 ++ [Event.newLoggerSource]
      if a.doDepth && !w.srcHasDepth then (t1, Outcome.fatal Msg.depthNotInLog)
      else if a.doRight && decide (w.srcNumImages < 2) then (t1, Outcome.fatal Msg.rightNotInLog)
      else
        record a w false fuel
          (t1 ++ (if a.calibOutput then [Event.warn Msg.noCalibrationFromLog] else []))
    else
      let t1 := t0 ++ [Event.newCamera a.svoInput]
        ++ [if a.svoOutput then Event.cameraInitRecording else Event.cameraInit]
        ++ [Event.newZedSource]
      if !w.cameraInitOk then
        (t1 ++ [Event.warn Msg.unableToInitZed, Event.deleteCamera], Outcome.exit (-1))
      else
        record a w true fuel
          (t1 ++ (if a.calibOutput && !a.svoInput then [Event.calibrationFromZed] else []))

/-! ## Observations on traces -/

/-- The image files written, in order: name and data. -/
def filesWritten (t : List Event) : List (String × Mat) :=
  t.filterMap (fun x => match x with
    | Event.imwrite f d => some (f, d)
    | _ => none)

/-- The number of calls of `dataSource->grab()`. -/
def grabCalls (t : List Event) : Nat :=
  t.countP (fun x => match x with
    | Event.grab _ => true
    | _ => false)

/-- The number of calls of `dataSource->grab()` that succeeded. -/
def framesGrabbed (t : List Event) : Nat :=
  t.countP (fun x => match x with
    | Event.grab true => true
    | _ => false)

/-- The number of warnings about a failed grab. -/
def grabWarnings (t : List Event) : Nat :=
  t.countP (fun x => match x with
    | Event.warn Msg.problemGrabbing => true
    | _ => false)

/-- The number of sleeps of the pacing. -/
def sleeps (t : List Event) : Nat :=
  t.countP (fun x => match x with
    | Event.sleepUntil _ => true
    | _ => false)

/-- The events of a pass through the loop body that runs to its end, entered
with `count` frames counted. -/
def bodyEvents (c : LoopCfg) (count : Int) (e : CycleEnv) : List Event :=
  progressLog count ++ (acquire c.args c.camera count e).getD [] ++ pacing c.dt e.present

/-- The events of the first `k` passes through the loop body. -/
def loopEvents (c : LoopCfg) (env : Nat → CycleEnv) : Nat → List Event
  | 0 => []
  | k + 1 => loopEvents c env k ++ bodyEvents c (k : Int) (env k)

/-! ## Output validation -/

/-- The events that construct a frame source. -/
def constructsSource : Event → Bool
  | Event.newLoggerSource => true
  | Event.newCamera _ => true
  | Event.newZedSource => true
  | _ => false

/-- The events with which a pass through the loop body acquires a frame. -/
def acquiresFrame : Event → Bool
  | Event.cameraRecord => true
  | Event.grab _ => true
  | _ => false

/-- A run is rejected at the output validation: the process exits with a
non-zero code, no frame source has been constructed and no pass through the
loop body has been made. -/
def rejectedAtValidation (r : List Event × Outcome) : Bool :=
  match r.2 with
  | Outcome.exit code => decide (code ≠ 0) && r.1.all (fun x => !constructsSource x && !acquiresFrame x)
  | _ => false

/-! ## Sample inputs -/

/-- A command line with no option set. -/
def sampleArgs : Args :=
  { fpsArg := 0, logInput := false, svoInput := false, svoOutput := false,
    loggerOutput := false, calibOutput := false, imageOutput := false,
    compression := none, doDepth := false, doRight := false, doGui := false,
    duration := 0 }

/-- A pass in which no signal arrives and every call succeeds, at time `i`,
with three different payloads. -/
def sampleEnv (i : Nat) : CycleEnv :=
  { signals := [], present := i, recordErr := false, grabOk := true,
    left := [1], right := [2], depth := [3], writeFrameOk := true }

/-- A pass like `sampleEnv` in which the grab fails. -/
def failingEnv (i : Nat) : CycleEnv :=
  { sampleEnv i with grabOk := false }

/-- A world in which every call succeeds, with a source of one frame and no
nominal frame rate. -/
def sampleWorld : World :=
  { imageDirExists := true, srcNumFrames := 1, srcFps := 0, srcHasDepth := true,
    srcNumImages := 2, cameraInitOk := true, logOpenOk := true, start := 0,
    cycle := sampleEnv }

/-- A pass like `sampleEnv`, the `i`-th one starting `i` ticks after one second
has gone by since time 0. -/
def boundaryEnv (i : Nat) : CycleEnv :=
  { sampleEnv i with present := 1000000000 + i }

/-! ## Primary sinks -/

/-- The three outputs of which a run is meant to have one. -/
inductive PrimarySink where
  | container
  | imageSequence
  | compressedLog
  deriving DecidableEq, Repr

/-- The primary sink an event is an operation of, if any: `camera->record()`,
the writing of an image file, and `newFrame`, `addField` and `writeFrame` of
the log writer. -/
def primarySink : Event → Option PrimarySink
  | Event.cameraRecord => some PrimarySink.container
  | Event.imwrite _ _ => some PrimarySink.imageSequence
  | Event.newFrame => some PrimarySink.compressedLog
  | Event.addField _ _ => some PrimarySink.compressedLog
  | Event.writeFrame _ => some PrimarySink.compressedLog
  | _ => none

/-! ## Lemmas on the loop -/

theorem deliver_false (sigs : List Int) : deliver sigs false = false := by
  induction sigs with
  | nil => rfl
  | cons x xs ih =>
    simp only [deliver, List.foldl_cons] at ih ⊢
    simpa [signal_handler] using ih

theorem deliver_of_not_mem (sigs : List Int) (k : Bool) (h : SIGINT ∉ sigs) :
    deliver sigs k = k := by
  induction sigs generalizing k with
  | nil => rfl
  | cons x xs ih =>
    have hx : x ≠ SIGINT := fun hx => h (by simp [hx])
    have hxs : SIGINT ∉ xs := fun hm => h (List.mem_cons_of_mem _ hm)
    have := ih k hxs
    simp only [deliver, List.foldl_cons] at this ⊢
    simpa [signal_handler, hx] using this

theorem deliver_of_mem (sigs : List Int) (k : Bool) (h : SIGINT ∈ sigs) :
    deliver sigs k = false := by
  induction sigs generalizing k with
  | nil => simp at h
  | cons x xs ih =>
    by_cases hx : x = SIGINT
    · have := deliver_false xs
      simp only [deliver, List.foldl_cons] at this ⊢
      simpa [signal_handler, hx] using this
    · have hxs : SIGINT ∈ xs := by
        rcases List.mem_cons.mp h with h1 | h1
        · exact absurd h1.symm hx
        · exact h1
      have := ih k hxs
      simp only [deliver, List.foldl_cons] at this ⊢
      simpa [signal_handler, hx] using this

theorem runLoop_not_running (c : LoopCfg) (env : Nat → CycleEnv) (k : Nat) (s : LoopState)
    (h : s.status ≠ Status.running) : runLoop c env k s = s := by
  cases k with
  | zero => rfl
  | succ k => simp [runLoop, h]

theorem runLoop_succ (c : LoopCfg) (env : Nat → CycleEnv) (k : Nat) (s : LoopState) :
    runLoop c env (k + 1) s =
      if (runLoop c env k s).status = Status.running
      then cycle c (env (runLoop c env k s).tests) (runLoop c env k s)
      else runLoop c env k s := by
  induction k generalizing s with
  | zero => simp [runLoop]
  | succ k ih =>
    by_cases hs : s.status = Status.running
    · have h1 : runLoop c env (k + 1 + 1) s = runLoop c env (k + 1) (cycle c (env s.tests) s) := by
        simp [runLoop, hs]
      have h2 : runLoop c env (k + 1) s = runLoop c env k (cycle c (env s.tests) s) := by
        simp [runLoop, hs]
      rw [h1, h2, ih]
    · rw [runLoop_not_running c env _ s hs, runLoop_not_running c env _ s hs]
      simp [hs]

theorem runLoop_add_of_not_running (c : LoopCfg) (env : Nat → CycleEnv) (k j : Nat)
    (s : LoopState) (h : (runLoop c env k s).status ≠ Status.running) :
    runLoop c env (k + j) s = runLoop c env k s := by
  induction j with
  | zero => rfl
  | succ j ih =>
    rw [← Nat.add_assoc, runLoop_succ, ih]
    simp [h]

/-- The state after `k` passes through the loop body, none of them cut short. -/
theorem runLoop_passes (c : LoopCfg) (env : Nat → CycleEnv) (t0 : List Event) (k : Nat)
    (hsig : ∀ i, i < k → SIGINT ∉ (env i).signals)
    (hdur : ∀ i, i < k → ¬ (c.args.duration > 0 ∧ (env i).present > c.endT))
    (hcam : c.args.svoOutput = true → c.camera = true)
    (hmax : (k : Int) ≤ INT_MAX)
    (hlim : c.numFrames > 0 → (k : Int) ≤ c.numFrames) :
    runLoop c env k (enterLoop t0) =
      { keepGoing := decide ((k : Int) ≠ c.numFrames ∨ c.numFrames ≤ 0),
        count := k, tests := k, trace := t0 ++ loopEvents c env k,
        status := Status.running } := by
  induction k with
  | zero =>
    have h0 : (((0 : Nat) : Int) ≠ c.numFrames ∨ c.numFrames ≤ 0) := by omega
    simp only [runLoop, enterLoop, loopEvents, List.append_nil, h0, decide_True]
    rfl
  | succ k ih =>
    have ih1 := ih (fun i hi => hsig i (by omega)) (fun i hi => hdur i (by omega))
      (by push_cast at hmax ⊢; omega) (by intro h; have := hlim h; push_cast at this ⊢; omega)
    rw [runLoop_succ, ih1]
    have hk : decide ((k : Int) ≠ c.numFrames ∨ c.numFrames ≤ 0) = true := by
      simp only [decide_eq_true_eq]
      by_cases h : c.numFrames > 0
      · have := hlim h; push_cast at this; omega
      · omega
    have hd := hdur k (by omega)
    have hacq : acquire c.args c.camera (k : Int) (env k)
        = some ((acquire c.args c.camera (k : Int) (env k)).getD []) := by
      unfold acquire
      by_cases hs : c.args.svoOutput = true
      · simp [hs, hcam hs]
      · simp [hs]
    have hov : ¬ ((k : Int) + 1 > INT_MAX) := by push_cast at hmax; omega
    simp only [cycle, hk, deliver_of_not_mem _ _ (hsig k (by omega)), hd, if_false]
    rw [hacq]
    simp only [hov, if_false, loopEvents, bodyEvents, Option.getD_some]
    by_cases h : c.numFrames > 0
    · have := hlim h
      push_cast at this ⊢
      by_cases h2 : (k : Int) + 1 = c.numFrames
      · simp [h, h2]
      · have h3 : ¬ ((k : Int) + 1 ≥ c.numFrames) := by omega
        simp [h, h2, h3]
    · have h3 : c.numFrames ≤ 0 := by omega
      simp [h, h3]

/-! ## Lemmas on the trace -/

theorem cycle_trace_mem (c : LoopCfg) (e : CycleEnv) (s : LoopState) (x : Event)
    (h : x ∈ s.trace) : x ∈ (cycle c e s).trace := by
  unfold cycle
  dsimp only
  split
  · exact h
  · split
    · simp [h]
    · split
      · simp [h]
      · split <;> simp [h]

theorem runLoop_trace_mem (c : LoopCfg) (env : Nat → CycleEnv) (k : Nat) (s : LoopState)
    (x : Event) (h : x ∈ s.trace) : x ∈ (runLoop c env k s).trace := by
  induction k generalizing s with
  | zero => exact h
  | succ k ih =>
    unfold runLoop
    split
    · exact ih _ (cycle_trace_mem c _ s x h)
    · exact h

theorem record_trace_mem (a : Args) (w : World) (camera : Bool) (fuel : Nat)
    (t : List Event) (x : Event) (h : x ∈ t) : x ∈ (record a w camera fuel t).1 := by
  unfold record
  split
  · exact h
  · split
    · exact h
    · dsimp only
      split
      · simp [h]
      · split
        · simp [h]
        · rename_i dt hdt
          have hm := runLoop_trace_mem
            { args := a, camera := camera, numFrames := w.srcNumFrames, dt := dt,
              endT := w.start + a.duration * 1000000000 } w.cycle fuel
            (enterLoop (t ++ (if a.loggerOutput = true then
                [Event.getImageSize, Event.registerField Field.left]
                ++ (if a.doDepth = true then [Event.registerField Field.depth] else [])
                ++ (if a.doRight = true then [Event.registerField Field.right] else [])
                ++ [Event.logOpen]
              else []) ++ [Event.sleepFor 1])) x (by simp [enterLoop, h])
          split
          · exact hm
          · exact hm
          · unfold teardown
            split
            · exact List.mem_append_left _ (List.mem_append_left _ (List.mem_append_left _ hm))
            · exact hm

/-! ## Lemmas on file names -/

theorem fmt06d_of_lt (n : Nat) (h : n < 1000000) :
    fmt06d (n : Int) =
      [Nat.digitChar (n / 100000 % 10), Nat.digitChar (n / 10000 % 10),
       Nat.digitChar (n / 1000 % 10), Nat.digitChar (n / 100 % 10),
       Nat.digitChar (n / 10 % 10), Nat.digitChar (n % 10)] := by
  have hneg : ¬ ((n : Int) < 0) := by omega
  simp only [fmt06d, Int.natAbs_ofNat, hneg, if_false]
  have e2 : n / 10 / 10 = n / 100 := by omega
  have e3 : n / 100 / 10 = n / 1000 := by omega
  have e4 : n / 1000 / 10 = n / 10000 := by omega
  have e5 : n / 10000 / 10 = n / 100000 := by omega
  have e6 : n / 100000 / 10 = 0 := by omega
  by_cases h1 : n / 10 = 0
  · have z1 : n / 10 % 10 = 0 := by omega
    have z2 : n / 100 % 10 = 0 := by omega
    have z3 : n / 1000 % 10 = 0 := by omega
    have z4 : n / 10000 % 10 = 0 := by omega
    have z5 : n / 100000 % 10 = 0 := by omega
    simp [decimalDigits, h1, z1, z2, z3, z4, z5, List.replicate]
    rfl
  · by_cases h2 : n / 100 = 0
    · have z2 : n / 100 % 10 = 0 := by omega
      have z3 : n / 1000 % 10 = 0 := by omega
      have z4 : n / 10000 % 10 = 0 := by omega
      have z5 : n / 100000 % 10 = 0 := by omega
      simp [decimalDigits, h1, e2, h2, z2, z3, z4, z5, List.replicate]
      rfl
    · by_cases h3 : n / 1000 = 0
      · have z3 : n / 1000 % 10 = 0 := by omega
        have z4 : n / 10000 % 10 = 0 := by omega
        have z5 : n / 100000 % 10 = 0 := by omega
        simp [decimalDigits, h1, e2, h2, e3, h3, z3, z4, z5, List.replicate]
        rfl
      · by_cases h4 : n / 10000 = 0
        · have z4 : n / 10000 % 10 = 0 := by omega
          have z5 : n / 100000 % 10 = 0 := by omega
          simp [decimalDigits, h1, e2, h2, e3, h3, e4, h4, z4, z5, List.replicate]
          rfl
        · by_cases h5 : n / 100000 = 0
          · have z5 : n / 100000 % 10 = 0 := by omega
            simp [decimalDigits, h1, e2, h2, e3, h3, e4, h4, e5, h5, z5, List.replicate]
            rfl
          · simp [decimalDigits, h1, e2, h2, e3, h3, e4, h4, e5, h5, e6, List.replicate]

theorem fileName_left_of_lt (n : Nat) (h : n < 1000000) :
    fileName "left" (n : Int) =
      String.mk ("left_".data ++
      [Nat.digitChar (n / 100000 % 10), Nat.digitChar (n / 10000 % 10),
       Nat.digitChar (n / 1000 % 10), Nat.digitChar (n / 100 % 10),
       Nat.digitChar (n / 10 % 10), Nat.digitChar (n % 10)] ++ ".png".data) := by
  simp [fileName, fmt06d_of_lt n h]

/-! ## Lemmas on the files written -/

theorem filesWritten_append (t u : List Event) :
    filesWritten (t ++ u) = filesWritten t ++ filesWritten u := by
  simp [filesWritten, List.filterMap_append]

theorem filesWritten_progressLog (count : Int) : filesWritten (progressLog count) = [] := by
  unfold progressLog
  split <;> rfl

theorem filesWritten_body_left_only (c : LoopCfg) (count : Int) (e : CycleEnv)
    (hdt : c.dt = 0) (himg : c.args.imageOutput = true) (hsvo : c.args.svoOutput = false)
    (hright : c.args.doRight = false) (hdepth : c.args.doDepth = false)
    (hlog : c.args.loggerOutput = false) (hgrab : e.grabOk = true) :
    filesWritten (bodyEvents c count e) = [(fileName "left" count, e.left)] := by
  simp only [bodyEvents, filesWritten_append, filesWritten_progressLog, acquire, hsvo,
    Bool.false_eq_true, if_false, Option.getD_some, grabAndDispatch, hgrab, if_true, himg,
    hright, hdepth, hlog, pacing, hdt, List.append_nil, List.nil_append, lt_self_iff_false,
    gt_iff_lt]
  by_cases hg : c.args.doGui = true
  · by_cases he : e.left.isEmpty = true
    · simp [hg, he, filesWritten]
    · simp [hg, he, filesWritten]
  · simp [hg, filesWritten]

/-! ## Lemmas on the calls of grab -/

theorem grabCalls_append (t u : List Event) : grabCalls (t ++ u) = grabCalls t + grabCalls u := by
  simp [grabCalls, List.countP_append]

theorem framesGrabbed_append (t u : List Event) :
    framesGrabbed (t ++ u) = framesGrabbed t + framesGrabbed u := by
  simp [framesGrabbed, List.countP_append]

theorem grabWarnings_append (t u : List Event) :
    grabWarnings (t ++ u) = grabWarnings t + grabWarnings u := by
  simp [grabWarnings, List.countP_append]

theorem sleeps_append (t u : List Event) : sleeps (t ++ u) = sleeps t + sleeps u := by
  simp [sleeps, List.countP_append]

theorem grabCalls_grabAndDispatch (a : Args) (count : Int) (e : CycleEnv) :
    grabCalls (grabAndDispatch a count e) = 1 := by
  simp only [grabCalls, grabAndDispatch]
  split
  · simp [List.countP_append, List.countP_cons, apply_ite (List.countP _)]
  · simp [List.countP_cons]

theorem framesGrabbed_grabAndDispatch (a : Args) (count : Int) (e : CycleEnv) :
    framesGrabbed (grabAndDispatch a count e) = if e.grabOk then 1 else 0 := by
  simp only [framesGrabbed, grabAndDispatch]
  split
  · simp [List.countP_append, List.countP_cons, apply_ite (List.countP _)]
  · simp [List.countP_cons]

theorem grabWarnings_grabAndDispatch (a : Args) (count : Int) (e : CycleEnv) :
    grabWarnings (grabAndDispatch a count e) = if e.grabOk then 0 else 1 := by
  simp only [grabWarnings, grabAndDispatch]
  split
  · simp [List.countP_append, List.countP_cons, apply_ite (List.countP _)]
  · simp [List.countP_cons]

theorem sleeps_grabAndDispatch (a : Args) (count : Int) (e : CycleEnv) :
    sleeps (grabAndDispatch a count e) = 0 := by
  simp only [sleeps, grabAndDispatch]
  split
  · simp [List.countP_append, List.countP_cons, apply_ite (List.countP _)]
  · simp [List.countP_cons]

theorem sleeps_acquire (a : Args) (camera : Bool) (count : Int) (e : CycleEnv) :
    sleeps ((acquire a camera count e).getD []) = 0 := by
  unfold acquire
  split
  · split
    · simp only [Option.getD_some, sleeps]
      split
      · simp [List.countP_cons]
      · split <;> simp [List.countP_cons]
    · rfl
  · simpa using sleeps_grabAndDispatch a count e

theorem sleeps_progressLog (count : Int) : sleeps (progressLog count) = 0 := by
  unfold progressLog
  split <;> rfl

theorem body_counts (c : LoopCfg) (count : Int) (e : CycleEnv)
    (hsvo : c.args.svoOutput = false) :
    grabCalls (bodyEvents c count e) = 1 ∧
    framesGrabbed (bodyEvents c count e) = (if e.grabOk then 1 else 0) ∧
    grabWarnings (bodyEvents c count e) = (if e.grabOk then 0 else 1) := by
  have hp : grabCalls (progressLog count) = 0 ∧ framesGrabbed (progressLog count) = 0 ∧
      grabWarnings (progressLog count) = 0 := by
    unfold progressLog
    split <;> exact ⟨rfl, rfl, rfl⟩
  have hs : grabCalls (pacing c.dt e.present) = 0 ∧ framesGrabbed (pacing c.dt e.present) = 0 ∧
      grabWarnings (pacing c.dt e.present) = 0 := by
    unfold pacing
    split <;> exact ⟨rfl, rfl, rfl⟩
  simp only [bodyEvents, acquire, hsvo, Bool.false_eq_true, if_false, Option.getD_some,
    grabCalls_append, framesGrabbed_append, grabWarnings_append, hp.1, hp.2.1, hp.2.2,
    hs.1, hs.2.1, hs.2.2, grabCalls_grabAndDispatch, framesGrabbed_grabAndDispatch,
    grabWarnings_grabAndDispatch, Nat.zero_add, Nat.add_zero, and_self]

theorem loop_counts (c : LoopCfg) (env : Nat → CycleEnv) (k : Nat)
    (hsvo : c.args.svoOutput = false) :
    grabCalls (loopEvents c env k) = k ∧
    framesGrabbed (loopEvents c env k) = (List.range k).countP (fun i => (env i).grabOk) ∧
    grabWarnings (loopEvents c env k) = (List.range k).countP (fun i => !(env i).grabOk) := by
  induction k with
  | zero => exact ⟨rfl, rfl, rfl⟩
  | succ k ih =>
    obtain ⟨h1, h2, h3⟩ := body_counts c (k : Int) (env k) hsvo
    simp only [loopEvents, grabCalls_append, framesGrabbed_append, grabWarnings_append,
      ih.1, ih.2.1, ih.2.2, h1, h2, h3, List.range_succ, List.countP_append, List.countP_cons,
      List.countP_nil, Nat.zero_add]
    refine ⟨trivial, ?_, ?_⟩
    · cases (env k).grabOk <;> simp
    · cases (env k).grabOk <;> simp

/-- The state in which a run with a frame ceiling `N` ends: the loop stops at
the test that follows the `N`-th pass. -/
theorem runLoop_ceiling (c : LoopCfg) (env : Nat → CycleEnv) (t0 : List Event) (N fuel : Nat)
    (hN : 0 < N) (hmax : (N : Int) ≤ INT_MAX) (hnum : c.numFrames = N)
    (hsig : ∀ i, i < N → SIGINT ∉ (env i).signals)
    (hdur : ∀ i, i < N → ¬ (c.args.duration > 0 ∧ (env i).present > c.endT))
    (hcam : c.args.svoOutput = true → c.camera = true)
    (hfuel : N < fuel) :
    runLoop c env fuel (enterLoop t0) =
      { keepGoing := false, count := N, tests := N + 1, trace := t0 ++ loopEvents c env N,
        status := Status.stopped } := by
  have hrun := runLoop_passes c env t0 N hsig hdur hcam hmax (fun _ => by rw [hnum])
  have hkg : decide ((N : Int) ≠ c.numFrames ∨ c.numFrames ≤ 0) = false := by
    simp only [decide_eq_false_iff_not, hnum]
    omega
  rw [hkg] at hrun
  have hstep : runLoop c env (N + 1) (enterLoop t0) =
      { keepGoing := false, count := N, tests := N + 1, trace := t0 ++ loopEvents c env N,
        status := Status.stopped } := by
    rw [runLoop_succ, hrun]
    simp [cycle, deliver_false]
  obtain ⟨j, rfl⟩ : ∃ j, fuel = N + 1 + j := ⟨fuel - (N + 1), by omega⟩
  rw [runLoop_add_of_not_running c env (N + 1) j _ (by rw [hstep]; simp), hstep]

/-! ## Lemmas on the pacing -/

theorem dt_us_of_pos (fps : ℚ) (dt : Int) (hpos : 0 < fps) (h : dt_us fps = some dt) :
    dt = ⌊(1000000 : ℚ) / fps⌋ := by
  have hq : (0 : ℚ) ≤ 1000000 / fps := by positivity
  simp only [dt_us, hpos, gt_iff_lt, if_true, toInt, hq] at h
  split at h
  · exact (Option.some.inj h).symm
  · exact Option.noConfusion h

theorem pacing_cycle_trace (c : LoopCfg) (e : CycleEnv) (s : LoopState)
    (hkg : deliver e.signals s.keepGoing = true)
    (hdur : ¬ (c.args.duration > 0 ∧ e.present > c.endT))
    (hcam : c.args.svoOutput = true → c.camera = true) :
    (cycle c e s).trace = s.trace ++ bodyEvents c s.count e := by
  have hacq : acquire c.args c.camera s.count e
      = some ((acquire c.args c.camera s.count e).getD []) := by
    unfold acquire
    by_cases hs : c.args.svoOutput = true
    · simp [hs, hcam hs]
    · simp [hs]
  simp only [cycle, hkg, hdur, if_false, Bool.true_eq_false]
  rw [hacq]
  dsimp only
  split <;> simp [bodyEvents, List.append_assoc]

theorem dt_us_thirty : dt_us 30 = some 33333 := by
  simp [dt_us, toInt, INT_MAX]
  norm_num

theorem dt_us_two_million : dt_us 2000000 = some 0 := by
  simp [dt_us, toInt, INT_MAX]
  norm_num

theorem floor_thirty : ⌊(1000000 : ℚ) / 30⌋ = 33333 := by
  rw [Int.floor_eq_iff]
  constructor <;> norm_num

/-! ## Output validation: the theorems -/

theorem main_constructs_source (a : Args) (w : World) (fuel : Nat) (h : noOutput a = false) :
    ∃ x, x ∈ (main a w fuel).1 ∧ constructsSource x = true := by
  unfold main
  simp only [h, Bool.false_eq_true, if_false]
  split
  · refine ⟨Event.newLoggerSource, ?_, rfl⟩
    dsimp only
    split
    · simp
    · split
      · simp
      · exact record_trace_mem _ _ _ _ _ _ (by simp)
  · refine ⟨Event.newZedSource, ?_, rfl⟩
    dsimp only
    split
    · simp
    · exact record_trace_mem _ _ _ _ _ _ (by simp)

/-- C8: a run is rejected at the output validation (exit with a non-zero code,
no source constructed, no pass through the loop made) exactly when none of the
container output, the compressed-log output, the image-directory output and the
live display is selected. -/
theorem output_validation_rejects_iff_no_output (a : Args) (w : World) (fuel : Nat) :
    rejectedAtValidation (main a w fuel) = true ↔
      (a.svoOutput = false ∧ a.loggerOutput = false ∧ a.imageOutput = false ∧
        a.doGui = false) := by
  constructor
  · intro hr
    by_cases hno : noOutput a = true
    · simp [noOutput] at hno
      tauto
    · exfalso
      have hno2 : noOutput a = false := by simpa using hno
      obtain ⟨x, hx, hc⟩ := main_constructs_source a w fuel hno2
      unfold rejectedAtValidation at hr
      split at hr
      · simp only [Bool.and_eq_true, List.all_eq_true] at hr
        have := hr.2 x hx
        simp [hc] at this
      · exact Bool.noConfusion hr
  · rintro ⟨h1, h2, h3, h4⟩
    simp [main, noOutput, h1, h2, h3, h4, rejectedAtValidation, constructsSource, acquiresFrame]

/-! ## The signal handler -/

/-- C9: calling `signal_handler` twice with a signal leaves `keepGoing` as
calling it once does, and a `keepGoing` that is false stays false. -/
theorem signal_handler_idempotent_and_monotone (sig : Int) (keepGoing : Bool) :
    signal_handler sig (signal_handler sig keepGoing) = signal_handler sig keepGoing ∧
      signal_handler sig false = false := by
  unfold signal_handler
  split <;> simp

/-! ## The image sequence -/

/-- C4: with FPS 0, no duration, no frame ceiling, the image directory as the
only output, no right image and no depth, and a source whose grab always
succeeds, after `n < 10^6` passes the files written are `left_000000.png` to
`left_<n-1>.png` (six decimal digits), one per pass in increasing order, each
with the left image of its pass; the frame counter is `n` and the loop is still
running; and once the interrupt signal has been delivered the next test of the
loop condition stops the loop without another pass or file. -/
theorem image_sequence_names_and_count (c : LoopCfg) (env : Nat → CycleEnv) (n : Nat)
    (hn : n < 1000000)
    (hfps : dt_us 0 = some c.dt) (hdur : c.args.duration = 0) (hnum : c.numFrames = 0)
    (himg : c.args.imageOutput = true) (hsvo : c.args.svoOutput = false)
    (hlog : c.args.loggerOutput = false)
    (hright : c.args.doRight = false) (hdepth : c.args.doDepth = false)
    (hgrab : ∀ i, (env i).grabOk = true)
    (hsig : ∀ i, i < n → SIGINT ∉ (env i).signals) :
    (runLoop c env n (enterLoop [])).status = Status.running ∧
    (runLoop c env n (enterLoop [])).keepGoing = true ∧
    (runLoop c env n (enterLoop [])).count = n ∧
    filesWritten (runLoop c env n (enterLoop [])).trace =
      (List.range n).map (fun i =>
        (String.mk ("left_".data ++
            [Nat.digitChar (i / 100000 % 10), Nat.digitChar (i / 10000 % 10),
             Nat.digitChar (i / 1000 % 10), Nat.digitChar (i / 100 % 10),
             Nat.digitChar (i / 10 % 10), Nat.digitChar (i % 10)] ++ ".png".data),
         (env i).left)) ∧
    (∀ e : CycleEnv, SIGINT ∈ e.signals →
      (cycle c e (runLoop c env n (enterLoop []))).status = Status.stopped ∧
      (cycle c e (runLoop c env n (enterLoop []))).keepGoing = false ∧
      (cycle c e (runLoop c env n (enterLoop []))).count = n ∧
      (cycle c e (runLoop c env n (enterLoop []))).trace =
        (runLoop c env n (enterLoop [])).trace) := by
  have hdt : c.dt = 0 := by
    have h0 : dt_us 0 = some 0 := by decide
    rw [h0] at hfps
    exact (Option.some.inj hfps).symm
  have hrun := runLoop_passes c env [] n hsig
    (fun i _ h => by rw [hdur] at h; exact absurd h.1 (by decide))
    (fun h => by rw [hsvo] at h; exact Bool.noConfusion h)
    (by unfold INT_MAX; omega)
    (fun h => by rw [hnum] at h; exact absurd h (by decide))
  have hfiles : ∀ k, k ≤ n → filesWritten (loopEvents c env k) =
      (List.range k).map (fun i =>
        (String.mk ("left_".data ++
            [Nat.digitChar (i / 100000 % 10), Nat.digitChar (i / 10000 % 10),
             Nat.digitChar (i / 1000 % 10), Nat.digitChar (i / 100 % 10),
             Nat.digitChar (i / 10 % 10), Nat.digitChar (i % 10)] ++ ".png".data),
         (env i).left)) := by
    intro k
    induction k with
    | zero => intro _; rfl
    | succ k ih =>
      intro hk
      rw [loopEvents, filesWritten_append, ih (by omega),
        filesWritten_body_left_only c _ _ hdt himg hsvo hright hdepth hlog (hgrab k),
        fileName_left_of_lt k (by omega), List.range_succ, List.map_append]
      rfl
  rw [hrun]
  refine ⟨rfl, ?_, rfl, ?_, ?_⟩
  · simp [hnum]
  · simpa using hfiles n le_rfl
  · intro e he
    simp [cycle, deliver_of_mem _ _ he]

theorem image_sequence_names_and_count_witness :
    filesWritten (runLoop
      { args := { sampleArgs with imageOutput := true },
        camera := true, numFrames := 0, dt := 0, endT := 0 }
      sampleEnv 2 (enterLoop [])).trace
      = [("left_000000.png", [1]), ("left_000001.png", [1])] :=
  (image_sequence_names_and_count
      { args := { sampleArgs with imageOutput := true },
        camera := true, numFrames := 0, dt := 0, endT := 0 }
      sampleEnv 2 (by decide) (by decide) rfl rfl rfl rfl rfl rfl rfl (fun _ => rfl)
      (fun _ _ => by simp [sampleEnv])).2.2.2.1.trans (by decide)

/-! ## The frame ceiling -/

/-- C1 as the code has it: with a frame ceiling `N > 0`, the container output
not selected, no interrupt and no duration budget, whatever the results of
grab, the loop runs through its body exactly `N` times and stops at the next
test of its condition; every pass counts towards the ceiling, so that `grab` is
called `N` times and the frames grabbed are those of the first `N` passes whose
grab succeeded. -/
theorem frame_ceiling_counts_every_pass (c : LoopCfg) (env : Nat → CycleEnv) (N : Nat)
    (hN : 0 < N) (hmax : (N : Int) ≤ INT_MAX) (hnum : c.numFrames = N)
    (hdur : c.args.duration = 0) (hsvo : c.args.svoOutput = false)
    (hsig : ∀ i, SIGINT ∉ (env i).signals) :
    (∀ k, k ≤ N →
      (runLoop c env k (enterLoop [])).status = Status.running ∧
      (runLoop c env k (enterLoop [])).count = k) ∧
    (∀ fuel, N < fuel →
      (runLoop c env fuel (enterLoop [])).status = Status.stopped ∧
      (runLoop c env fuel (enterLoop [])).count = N ∧
      (runLoop c env fuel (enterLoop [])).tests = N + 1 ∧
      grabCalls (runLoop c env fuel (enterLoop [])).trace = N ∧
      framesGrabbed (runLoop c env fuel (enterLoop [])).trace =
        (List.range N).countP (fun i => (env i).grabOk)) := by
  have hd : ∀ i, ¬ (c.args.duration > 0 ∧ (env i).present > c.endT) := by
    intro i h; rw [hdur] at h; exact absurd h.1 (by decide)
  have hcam : c.args.svoOutput = true → c.camera = true := by
    intro h; rw [hsvo] at h; exact Bool.noConfusion h
  constructor
  · intro k hk
    rw [runLoop_passes c env [] k (fun i _ => hsig i) (fun i _ => hd i) hcam
      (by unfold INT_MAX at hmax ⊢; omega) (fun _ => by rw [hnum]; omega)]
    exact ⟨rfl, rfl⟩
  · intro fuel hfuel
    rw [runLoop_ceiling c env [] N fuel hN hmax hnum (fun i _ => hsig i) (fun i _ => hd i)
      hcam hfuel]
    obtain ⟨h1, h2, _⟩ := loop_counts c env N hsvo
    exact ⟨rfl, rfl, rfl, by simpa using h1, by simpa using h2⟩

theorem frame_ceiling_counts_every_pass_witness :
    framesGrabbed (runLoop
      { args := { sampleArgs with imageOutput := true }, camera := true, numFrames := 2,
        dt := 0, endT := 0 }
      failingEnv 3 (enterLoop [])).trace = 0 :=
  ((frame_ceiling_counts_every_pass
      { args := { sampleArgs with imageOutput := true }, camera := true, numFrames := 2,
        dt := 0, endT := 0 }
      failingEnv 2 (by decide) (by decide) rfl rfl rfl
      (fun _ => by simp [failingEnv, sampleEnv])).2 3 (by decide)).2.2.2.2.trans (by decide)

/-- C1 fails as stated: with the frame ceiling 1 and a grab that fails, the
loop makes one pass, grabs no frame and stops; the run ends normally with no
frame grabbed, where the claim has one. -/
theorem frame_ceiling_counts_failed_grab :
    main { sampleArgs with imageOutput := true } { sampleWorld with cycle := failingEnv } 5 =
      ([Event.newCamera false, Event.cameraInit, Event.newZedSource, Event.sleepFor 1,
        Event.grab false, Event.warn Msg.problemGrabbing,
        Event.stopRecording, Event.deleteDataSource, Event.deleteCamera],
       Outcome.exit 0) ∧
    sampleWorld.srcNumFrames = 1 ∧
    framesGrabbed
      (main { sampleArgs with imageOutput := true } { sampleWorld with cycle := failingEnv } 5).1
      = 0 := by
  decide

/-- C2 as the code has it: with the container output not selected, a source
that reports `F > 0` frames and whose grab succeeds on each of them, no
duration budget and no interrupt, the loop makes exactly `F` passes with `F`
calls of grab, all of them successful, no warning about a failed grab, and
stops with the frame counter at `F`. -/
theorem recorded_source_round_trip (c : LoopCfg) (env : Nat → CycleEnv) (F : Nat)
    (hF : 0 < F) (hmax : (F : Int) ≤ INT_MAX) (hnum : c.numFrames = F)
    (hdur : c.args.duration = 0) (hsvo : c.args.svoOutput = false)
    (hsig : ∀ i, SIGINT ∉ (env i).signals)
    (hgrab : ∀ i, i < F → (env i).grabOk = true) :
    ∀ fuel, F < fuel →
      (runLoop c env fuel (enterLoop [])).status = Status.stopped ∧
      (runLoop c env fuel (enterLoop [])).tests = F + 1 ∧
      (runLoop c env fuel (enterLoop [])).count = F ∧
      grabCalls (runLoop c env fuel (enterLoop [])).trace = F ∧
      framesGrabbed (runLoop c env fuel (enterLoop [])).trace = F ∧
      grabWarnings (runLoop c env fuel (enterLoop [])).trace = 0 := by
  have hd : ∀ i, ¬ (c.args.duration > 0 ∧ (env i).present > c.endT) := by
    intro i h; rw [hdur] at h; exact absurd h.1 (by decide)
  have hcam : c.args.svoOutput = true → c.camera = true := by
    intro h; rw [hsvo] at h; exact Bool.noConfusion h
  intro fuel hfuel
  rw [runLoop_ceiling c env [] F fuel hF hmax hnum (fun i _ => hsig i) (fun i _ => hd i)
    hcam hfuel]
  obtain ⟨h1, h2, h3⟩ := loop_counts c env F hsvo
  have hall : (List.range F).countP (fun i => (env i).grabOk) = F := by
    have : (List.range F).countP (fun i => (env i).grabOk) = (List.range F).length := by
      rw [List.countP_eq_length]
      intro i hi
      exact hgrab i (List.mem_range.mp hi)
    simpa using this
  have hnone : (List.range F).countP (fun i => !(env i).grabOk) = 0 := by
    rw [List.countP_eq_zero]
    intro i hi
    simp [hgrab i (List.mem_range.mp hi)]
  refine ⟨rfl, rfl, rfl, by simpa using h1, ?_, ?_⟩
  · simpa [hall] using h2
  · simpa [hnone] using h3

theorem recorded_source_round_trip_witness :
    grabCalls (runLoop
      { args := { sampleArgs with logInput := true, doGui := true }, camera := false,
        numFrames := 2, dt := 0, endT := 0 }
      sampleEnv 3 (enterLoop [])).trace = 2 :=
  (recorded_source_round_trip
      { args := { sampleArgs with logInput := true, doGui := true }, camera := false,
        numFrames := 2, dt := 0, endT := 0 }
      sampleEnv 2 (by decide) (by decide) rfl rfl rfl
      (fun _ => by simp [sampleEnv]) (fun _ _ => rfl) 3 (by decide)).2.2.2.1

/-- C2 fails as stated: with a recorded container as input, one frame long,
and the container output selected, the loop makes its one pass with a call of
`camera->record()` and no call of grab at all, where the claim has one. -/
theorem recorded_source_to_container_never_grabs :
    main { sampleArgs with svoInput := true, svoOutput := true } sampleWorld 5 =
      ([Event.newCamera true, Event.cameraInitRecording, Event.newZedSource, Event.sleepFor 1,
        Event.cameraRecord,
        Event.stopRecording, Event.deleteDataSource, Event.deleteCamera],
       Outcome.exit 0) ∧
    sampleWorld.srcNumFrames = 1 ∧
    grabCalls (main { sampleArgs with svoInput := true, svoOutput := true } sampleWorld 5).1
      = 0 := by
  decide

/-! ## The duration budget -/

/-- C3 as the code has it: with a duration budget `D > 0`, a pass that starts
strictly later than `start + D` seconds clears `keepGoing` and leaves the loop
with no grab, no record, no sleep and the frame counter unchanged (only the
progress message may be logged); a pass that starts at `start + D` exactly, or
earlier, is not stopped by the budget: it runs the body to its end (grab or
record, dispatch, pacing) and counts the frame, and it clears `keepGoing` only
when the frame ceiling is reached; with `D = 0` a pass whose test of
`keepGoing` succeeds never stops the loop, whatever the time, and runs the body
in the same way. -/
theorem duration_budget_stops_strictly_after (c : LoopCfg) (e : CycleEnv) (s : LoopState)
    (start : Int)
    (hend : c.endT = start + c.args.duration * 1000000000)
    (hkg : deliver e.signals s.keepGoing = true) :
    (c.args.duration > 0 → e.present - start > c.args.duration * 1000000000 →
      (cycle c e s).status = Status.stopped ∧
      (cycle c e s).keepGoing = false ∧
      (cycle c e s).count = s.count ∧
      (cycle c e s).trace = s.trace ++ progressLog s.count) ∧
    (c.args.duration = 0 →
      (cycle c e s).status ≠ Status.stopped ∧
      ((cycle c e s).keepGoing = false → c.numFrames > 0 ∧ s.count + 1 ≥ c.numFrames)) ∧
    ((c.args.duration = 0 ∨
        (c.args.duration > 0 ∧ e.present - start ≤ c.args.duration * 1000000000)) →
      (cycle c e s).status ≠ Status.stopped ∧
      ((cycle c e s).keepGoing = false → c.numFrames > 0 ∧ s.count + 1 ≥ c.numFrames) ∧
      ((c.args.svoOutput = true → c.camera = true) →
        (cycle c e s).trace = s.trace ++ bodyEvents c s.count e ∧
        (s.count + 1 ≤ INT_MAX →
          (cycle c e s).status = Status.running ∧
          (cycle c e s).count = s.count + 1 ∧
          (cycle c e s).keepGoing =
            (if c.numFrames > 0 ∧ s.count + 1 ≥ c.numFrames then false else true)))) := by
  have hrest : ¬ (c.args.duration > 0 ∧ e.present > c.endT) →
      (cycle c e s).status ≠ Status.stopped ∧
      ((cycle c e s).keepGoing = false → c.numFrames > 0 ∧ s.count + 1 ≥ c.numFrames) ∧
      ((c.args.svoOutput = true → c.camera = true) →
        (cycle c e s).trace = s.trace ++ bodyEvents c s.count e ∧
        (s.count + 1 ≤ INT_MAX →
          (cycle c e s).status = Status.running ∧
          (cycle c e s).count = s.count + 1 ∧
          (cycle c e s).keepGoing =
            (if c.numFrames > 0 ∧ s.count + 1 ≥ c.numFrames then false else true))) := by
    intro hnd
    refine ⟨?_, ?_, ?_⟩
    · simp only [cycle, hkg, hnd, if_false, Bool.true_eq_false]
      split
      · simp
      · split <;> simp
    · simp only [cycle, hkg, hnd, if_false, Bool.true_eq_false]
      split
      · simp
      · split
        · simp
        · dsimp only
          split
          · intro _; assumption
          · intro h; exact Bool.noConfusion h
    · intro hcam
      refine ⟨pacing_cycle_trace c e s hkg hnd hcam, ?_⟩
      intro hov
      have hacq : acquire c.args c.camera s.count e
          = some ((acquire c.args c.camera s.count e).getD []) := by
        unfold acquire
        by_cases hs : c.args.svoOutput = true
        · simp [hs, hcam hs]
        · simp [hs]
      have hov2 : ¬ (s.count + 1 > INT_MAX) := by omega
      simp only [cycle, hkg, hnd, if_false, Bool.true_eq_false]
      rw [hacq]
      simp only [hov2, if_false, and_self]
  refine ⟨?_, ?_, ?_⟩
  · intro hD hlate
    have hp : e.present > c.endT := by rw [hend]; omega
    simp [cycle, hkg, hD, hp]
  · intro hD
    have hnd : ¬ (c.args.duration > 0 ∧ e.present > c.endT) := by
      rw [hD]; exact fun h => absurd h.1 (by decide)
    exact ⟨(hrest hnd).1, (hrest hnd).2.1⟩
  · intro hcase
    apply hrest
    rcases hcase with h0 | ⟨_, hle⟩
    · rw [h0]; exact fun h => absurd h.1 (by decide)
    · intro h
      have := h.2
      rw [hend] at this
      omega

theorem duration_budget_stops_strictly_after_witness :
    (cycle { args := { sampleArgs with doGui := true, duration := 1 }, camera := true,
             numFrames := 0, dt := 0, endT := 1000000000 }
       { sampleEnv 0 with present := 1000000001 } (enterLoop [])).status = Status.stopped ∧
    ((cycle { args := { sampleArgs with doGui := true, duration := 2 }, camera := true,
              numFrames := 0, dt := 0, endT := 2000000000 }
        { sampleEnv 0 with present := 2000000000 } (enterLoop [])).status = Status.running ∧
     (cycle { args := { sampleArgs with doGui := true, duration := 2 }, camera := true,
              numFrames := 0, dt := 0, endT := 2000000000 }
        { sampleEnv 0 with present := 2000000000 } (enterLoop [])).count = 1) :=
  ⟨((duration_budget_stops_strictly_after
      { args := { sampleArgs with doGui := true, duration := 1 }, camera := true,
        numFrames := 0, dt := 0, endT := 1000000000 }
      { sampleEnv 0 with present := 1000000001 } (enterLoop []) 0 (by decide) (by decide)).1
    (by decide) (by decide)).1,
   let h := ((((duration_budget_stops_strictly_after
      { args := { sampleArgs with doGui := true, duration := 2 }, camera := true,
        numFrames := 0, dt := 0, endT := 2000000000 }
      { sampleEnv 0 with present := 2000000000 } (enterLoop []) 0 (by decide) (by decide)).2.2
    (Or.inr ⟨by decide, by decide⟩)).2.2 (fun _ => rfl)).2 (by decide))
   ⟨h.1, h.2.1⟩⟩

/-- C3 fails as stated: with a budget of one second and `start` at 0, the pass
that starts at exactly one second does not stop the loop: it calls grab and
shows the frame; the loop stops at the next pass, one tick later. -/
theorem duration_budget_boundary_pass_runs :
    (boundaryEnv 0).present - 0 = 1 * 1000000000 ∧
    main { sampleArgs with doGui := true, duration := 1 }
         { sampleWorld with srcNumFrames := 0, start := 0, cycle := boundaryEnv } 5 =
      ([Event.newCamera false, Event.cameraInit, Event.newZedSource, Event.sleepFor 1,
        Event.grab true, Event.getImage 0, Event.imshow "Left" [1], Event.waitKey,
        Event.stopRecording, Event.deleteDataSource, Event.deleteCamera],
       Outcome.exit 0) := by
  decide

/-! ## The pacing -/

/-- C7 as the code has it, with `fps` a rational for which the conversion of
`1e6/fps` to `int` is defined: in every pass that gets past the duration check
and does not call through a missing camera, whatever the result of its grab,
when `0 < fps ≤ 10^6` the last event is a sleep until the time the pass started
plus `1e6/fps` microseconds rounded down, and it is the only sleep of the pass;
when `fps = 0` or `fps > 10^6` the pass issues no sleep. -/
theorem pacing_sleeps_until_start_plus_interval (fps : ℚ) (c : LoopCfg) (e : CycleEnv)
    (s : LoopState)
    (hdt : dt_us fps = some c.dt)
    (hkg : deliver e.signals s.keepGoing = true)
    (hdur : ¬ (c.args.duration > 0 ∧ e.present > c.endT))
    (hcam : c.args.svoOutput = true → c.camera = true) :
    (0 < fps → fps ≤ 1000000 →
      (cycle c e s).trace =
        s.trace ++ (progressLog s.count ++ (acquire c.args c.camera s.count e).getD [])
          ++ [Event.sleepUntil (e.present + ⌊(1000000 : ℚ) / fps⌋ * 1000)] ∧
      sleeps (progressLog s.count ++ (acquire c.args c.camera s.count e).getD []) = 0) ∧
    ((fps = 0 ∨ 1000000 < fps) →
      (cycle c e s).trace =
        s.trace ++ (progressLog s.count ++ (acquire c.args c.camera s.count e).getD []) ∧
      sleeps (progressLog s.count ++ (acquire c.args c.camera s.count e).getD []) = 0) := by
  have hno : sleeps (progressLog s.count ++ (acquire c.args c.camera s.count e).getD []) = 0 := by
    rw [sleeps_append, sleeps_progressLog, sleeps_acquire]
  have htr := pacing_cycle_trace c e s hkg hdur hcam
  constructor
  · intro hpos hle
    have hfl := dt_us_of_pos fps c.dt hpos hdt
    have hone : (1 : ℚ) ≤ 1000000 / fps := by
      rw [le_div_iff₀ hpos]; linarith
    have hge : (1 : Int) ≤ ⌊(1000000 : ℚ) / fps⌋ := Int.le_floor.mpr (by exact_mod_cast hone)
    have hgt : c.dt > 0 := by rw [hfl]; omega
    refine ⟨?_, hno⟩
    rw [htr, bodyEvents, pacing, if_pos hgt, hfl, List.append_assoc, List.append_assoc,
      List.append_assoc]
  · intro hcase
    have hzero : c.dt = 0 := by
      rcases hcase with h0 | hbig
      · rw [h0] at hdt
        have h1 : dt_us 0 = some 0 := by decide
        rw [h1] at hdt
        exact (Option.some.inj hdt).symm
      · have hpos : 0 < fps := by linarith
        rw [dt_us_of_pos fps c.dt hpos hdt]
        have hlt : (1000000 : ℚ) / fps < 1 := by
          rw [div_lt_iff₀ hpos]; linarith
        have hnn : (0 : ℚ) ≤ 1000000 / fps := by positivity
        exact Int.floor_eq_iff.mpr ⟨by exact_mod_cast hnn, by simpa using hlt⟩
    refine ⟨?_, hno⟩
    rw [htr, bodyEvents, pacing, hzero]
    simp

theorem pacing_sleeps_until_start_plus_interval_witness :
    (cycle { args := { sampleArgs with doGui := true }, camera := true,
             numFrames := 0, dt := 33333, endT := 0 }
       (sampleEnv 7) (enterLoop [])).trace =
      [Event.grab true, Event.getImage 0, Event.imshow "Left" [1], Event.waitKey,
       Event.sleepUntil 33333007] :=
  (((pacing_sleeps_until_start_plus_interval 30
      { args := { sampleArgs with doGui := true }, camera := true,
        numFrames := 0, dt := 33333, endT := 0 }
      (sampleEnv 7) (enterLoop []) dt_us_thirty (by decide) (by decide) (fun _ => rfl)).1
    (by norm_num) (by norm_num)).1).trans (by rw [floor_thirty]; decide)

/-- C7 fails as stated: at a nominal rate of two million frames a second the
interval `1e6/fps` is rounded down to 0 microseconds, and a pass that gets past
the duration check issues no sleep at all. -/
theorem pacing_no_sleep_above_a_million_fps :
    dt_us 2000000 = some 0 ∧
    (main { sampleArgs with doGui := true } { sampleWorld with srcFps := 2000000 } 5) =
      ([Event.newCamera false, Event.cameraInit, Event.newZedSource, Event.sleepFor 1,
        Event.grab true, Event.getImage 0, Event.imshow "Left" [1], Event.waitKey,
        Event.stopRecording, Event.deleteDataSource, Event.deleteCamera],
       Outcome.exit 0) := by
  refine ⟨dt_us_two_million, ?_⟩
  have h : ((2000000 : ℚ) < 0) = False := by norm_num
  simp only [main, record, sampleWorld, sampleArgs, noOutput, dt_us_two_million, h]
  decide

/-! ## Where the code departs from its description -/

/-- C5 does not hold of the code: with the image directory as output and the
right image and the depth requested, in a pass whose left, right and depth
payloads are `[1]`, `[2]` and `[3]`, the files `right_000000.png` and
`depth_000000.png` are both written with the left payload `[1]`. -/
theorem right_and_depth_files_get_left_payload :
    (sampleEnv 0).left = [1] ∧ (sampleEnv 0).right = [2] ∧ (sampleEnv 0).depth = [3] ∧
    grabAndDispatch { sampleArgs with imageOutput := true, doRight := true, doDepth := true }
        0 (sampleEnv 0) =
      [Event.grab true, Event.getImage 0, Event.imwrite "left_000000.png" [1],
       Event.getImage 1, Event.imwrite "right_000000.png" [1],
       Event.getDepth, Event.imwrite "depth_000000.png" [1]] := by
  decide

/-- C6 does not hold of the code: with the image directory and the compressed
log both selected, a pass whose grab succeeds writes an image file and also
calls `writeFrame` on the log writer, so that two primary sinks receive an
operation in the same pass. -/
theorem image_and_log_outputs_share_a_pass :
    acquire { sampleArgs with imageOutput := true, loggerOutput := true } true 0 (sampleEnv 0) =
      some [Event.grab true, Event.getImage 0, Event.imwrite "left_000000.png" [1],
            Event.writeFrame false] ∧
    ((acquire { sampleArgs with imageOutput := true, loggerOutput := true } true 0
        (sampleEnv 0)).getD []).filterMap primarySink =
      [PrimarySink.imageSequence, PrimarySink.compressedLog] := by
  decide

/-- C10 does not hold of the code: with a recorded log as input no camera is
constructed, and yet the teardown calls `camera->stopRecording()`; with the
compressed-log output selected as well the registration of the fields calls
`camera->getImageSize()`, and with the container output selected the loop
calls `camera->record()`. -/
theorem log_input_uses_missing_camera :
    main { sampleArgs with logInput := true, doGui := true } sampleWorld 5 =
      ([Event.newLoggerSource, Event.sleepFor 1,
        Event.grab true, Event.getImage 0, Event.imshow "Left" [1], Event.waitKey],
       Outcome.nullCamera CameraOp.stopRecording) ∧
    main { sampleArgs with logInput := true, loggerOutput := true } sampleWorld 5 =
      ([Event.newLoggerSource], Outcome.nullCamera CameraOp.getImageSize) ∧
    main { sampleArgs with logInput := true, svoOutput := true } sampleWorld 5 =
      ([Event.newLoggerSource, Event.sleepFor 1], Outcome.nullCamera CameraOp.record) := by
  decide

end ZedRecorder
